import Mathlib

/-!
Verification of the transcript-selection logic of `tube-radar`
(src/server/transcript.py and src/server/app.py), shallowly embedded in Lean.

The external captions provider (the `youtube_transcript_api` library) is
modelled as data: `YouTubeTranscriptApi.list_transcripts` becomes a value of
type `Except PyExn (List Track)` — either the Python exception it raises or
the ordered enumeration of tracks it yields — and each track carries the
outcome of its `fetch()` call as an `Except PyExn (List Segment)` field.
Python floating-point numbers are modelled as rationals.
-/

/-- The Python exceptions relevant to transcript.py's `except` clauses:
the three named classes of `youtube_transcript_api._errors` that the code
catches by name, and `other` for any further exception (network fault, etc.),
carrying its `str(e)` description.  (`NoTranscriptFound` never escapes the
embedded code: the finder functions below return `Option` instead.) -/
inductive PyExn where
  | transcriptsDisabled
  | videoUnavailable
  | noTranscriptAvailable
  | other (msg : String)
  deriving Repr, DecidableEq

/-- Python `str(e)`.  For the three named constructors the text stands for the
external library's own exception message (library code, not this repository);
for `other` it is the carried description itself. -/
def PyExn.str : PyExn → String
  | .transcriptsDisabled => "Subtitles are disabled for this video"
  | .videoUnavailable => "The video is no longer available"
  | .noTranscriptAvailable => "No transcripts are available for this video"
  | .other msg => msg

/-- One timed caption entry, per transcript.py: `{start, duration, text}`. -/
structure Segment where
  start : ℚ
  duration : ℚ
  text : String
  deriving Repr, DecidableEq

instance {ε α : Type} [DecidableEq ε] [DecidableEq α] :
    DecidableEq (Except ε α) := fun x y =>
  match x, y with
  | .ok a, .ok b =>
    if h : a = b then .isTrue (by rw [h])
    else .isFalse (fun hc => h (Except.ok.inj hc))
  | .error a, .error b =>
    if h : a = b then .isTrue (by rw [h])
    else .isFalse (fun hc => h (Except.error.inj hc))
  | .ok _, .error _ => .isFalse (fun hc => Except.noConfusion hc)
  | .error _, .ok _ => .isFalse (fun hc => Except.noConfusion hc)

/-- One caption track of the provider's enumeration, with its language code,
display name, generated flag, and the outcome of fetching its segments. -/
structure Track where
  language_code : String
  language : String
  is_generated : Bool
  fetch : Except PyExn (List Segment)
  deriving Repr, DecidableEq

/-- The provider's response to `YouTubeTranscriptApi.list_transcripts(video_id)`:
an exception, or the tracks in the provider's enumeration order. -/
abbrev Listing := Except PyExn (List Track)

/-- The dictionary returned by `extract_transcript` (transcript.py). -/
structure TranscriptResult where
  success : Bool
  video_id : String
  language : Option String
  is_generated : Bool
  segments : List Segment
  full_text : String
  error : Option String
  deriving Repr, DecidableEq

/-- Python `round(x, 2)` over the rational model of floats. -/
def round2 (x : ℚ) : ℚ := (round (x * 100) : ℤ) / 100

/-- `transcript_list.find_manually_created_transcript([lang])`, with the
`NoTranscriptFound` failure modelled as `none`: the first manually created
track of the enumeration whose language code is `lang`. -/
def findManualTrack (tracks : List Track) (lang : String) : Option Track :=
  tracks.find? (fun t => !t.is_generated && t.language_code == lang)

/-- `transcript_list.find_generated_transcript([lang])`, failure as `none`. -/
def findGeneratedTrack (tracks : List Track) (lang : String) : Option Track :=
  tracks.find? (fun t => t.is_generated && t.language_code == lang)

/-- Steps 2–4 of `extract_transcript`: the manual-track priority loop, then the
generated-track priority loop, then the fallback to the first track of the
enumeration (`for t in transcript_list: ...; break`, whose surrounding
`try/except: pass` is unreachable since iterating the in-memory listing cannot
raise).  Returns the chosen track together with the `is_generated` flag the
code records for it (`False` in the manual branch, `True` in the generated
branch, the track's own flag in the fallback branch). -/
def selectTrack (tracks : List Track) (lang_priority : List String) :
    Option (Track × Bool) :=
  match lang_priority.findSome? (findManualTrack tracks) with
  | some t => some (t, false)
  | none =>
    match lang_priority.findSome? (findGeneratedTrack tracks) with
    | some t => some (t, true)
    | none =>
      match tracks.head? with
      | some t => some (t, t.is_generated)
      | none => none

/-- The initial `result` dictionary of `extract_transcript`. -/
def initResult (video_id : String) : TranscriptResult :=
  { success := false, video_id := video_id, language := none,
    is_generated := false, segments := [], full_text := "", error := none }

/-- The messages of the four `except` clauses of `extract_transcript`,
checked in the source's clause order. -/
def catchMsg : PyExn → String
  | .transcriptsDisabled => "이 영상은 자막이 비활성화되어 있습니다."
  | .videoUnavailable => "영상을 찾을 수 없거나 비공개 상태입니다."
  | .noTranscriptAvailable => "이 영상에 사용 가능한 자막이 없습니다."
  | .other msg => "자막 추출 중 오류 발생: " ++ msg

/-- `extract_transcript(video_id, lang_priority)` of transcript.py, with the
provider's behaviour passed in as `listing`.  `lang_priority = none` models
the Python default argument `None`, replaced by `["ko", "en"]`. -/
def extract_transcript (listing : Listing) (video_id : String)
    (lang_priority : Option (List String) := none) : TranscriptResult :=
  let lp := lang_priority.getD ["ko", "en"]
  let result := initResult video_id
  match listing with
  | .error e => { result with error := some (catchMsg e) }
  | .ok tracks =>
    match selectTrack tracks lp with
    | none => { result with error := some "이 영상에 사용 가능한 자막이 없습니다." }
    | some (t, gen) =>
      match t.fetch with
      | .error e => { result with is_generated := gen, error := some (catchMsg e) }
      | .ok segs =>
        { result with
          success := true
          language := some t.language_code
          is_generated := gen
          segments := segs.map (fun s =>
            { start := round2 s.start, duration := round2 s.duration,
              text := s.text })
          full_text := String.intercalate "\n" (segs.map Segment.text) }

/-- One entry of the language list of `list_available_languages`. -/
structure LanguageEntry where
  code : String
  name : String
  is_generated : Bool
  deriving Repr, DecidableEq

/-- The dictionary returned by `list_available_languages`; `error = none`
models the success dictionary, which has no error key. -/
structure LanguagesResult where
  success : Bool
  video_id : String
  languages : List LanguageEntry
  error : Option String
  deriving Repr, DecidableEq

/-- `list_available_languages(video_id)` of transcript.py, with the provider's
behaviour passed in as `listing`. -/
def list_available_languages (listing : Listing) (video_id : String) :
    LanguagesResult :=
  match listing with
  | .ok tracks =>
    { success := true, video_id := video_id,
      languages := tracks.map (fun t =>
        { code := t.language_code, name := t.language,
          is_generated := t.is_generated }),
      error := none }
  | .error e =>
    { success := false, video_id := video_id, languages := [],
      error := some e.str }

/-- Python `lang.split(",")` over the character list of the string: splits at
every comma and keeps empty fields, so the empty string yields `[[]]`, exactly
as Python's `"".split(",") == [""]`. -/
def pySplitComma : List Char → List (List Char)
  | [] => [[]]
  | c :: rest =>
    if c = ',' then [] :: pySplitComma rest
    else
      match pySplitComma rest with
      | [] => [[c]]
      | h :: t => (c :: h) :: t

/-- Python `s.strip()`: drop whitespace from both ends. -/
def pyStrip (s : List Char) : List Char :=
  ((s.dropWhile Char.isWhitespace).reverse.dropWhile Char.isWhitespace).reverse

/-- The language-priority parsing of app.py's `get_transcript`:
`[l.strip() for l in lang.split(",") if l.strip()]` — the comma-separated
fields of `lang`, each stripped, with the empty ones removed (a stripped-empty
string is falsy in Python, so such fields are filtered out). -/
def parse_lang (lang : String) : List String :=
  ((pySplitComma lang.data).map (fun l => String.mk (pyStrip l))).filter
    (fun s => s ≠ "")

/-- The GET /api/transcript handler of app.py.  `lang = none` models an absent
query parameter, for which FastAPI supplies the declared default `"ko,en"`;
the handler always passes the parsed list (never Python `None`) on. -/
def get_transcript (listing : Listing) (v : String) (lang : Option String) :
    TranscriptResult :=
  extract_transcript listing v (some (parse_lang (lang.getD "ko,en")))

/-- The GET /api/languages handler of app.py. -/
def get_languages (listing : Listing) (v : String) : LanguagesResult :=
  list_available_languages listing v

/-! ## Helper lemmas about the embedded definitions -/

lemma extract_listing_error (e : PyExn) (v : String) (lpo : Option (List String)) :
    extract_transcript (Except.error e) v lpo =
      { initResult v with error := some (catchMsg e) } := rfl

lemma extract_select_none (tracks : List Track) (v : String)
    (lpo : Option (List String))
    (h : selectTrack tracks (lpo.getD ["ko", "en"]) = none) :
    extract_transcript (Except.ok tracks) v lpo =
      { initResult v with error := some "이 영상에 사용 가능한 자막이 없습니다." } := by
  simp [extract_transcript, h]

lemma extract_fetch_err (tracks : List Track) (v : String)
    (lpo : Option (List String)) (t : Track) (gen : Bool) (e : PyExn)
    (hsel : selectTrack tracks (lpo.getD ["ko", "en"]) = some (t, gen))
    (hf : t.fetch = Except.error e) :
    extract_transcript (Except.ok tracks) v lpo =
      { initResult v with is_generated := gen, error := some (catchMsg e) } := by
  simp [extract_transcript, hsel, hf]

lemma extract_fetch_ok (tracks : List Track) (v : String)
    (lpo : Option (List String)) (t : Track) (gen : Bool) (segs : List Segment)
    (hsel : selectTrack tracks (lpo.getD ["ko", "en"]) = some (t, gen))
    (hf : t.fetch = Except.ok segs) :
    extract_transcript (Except.ok tracks) v lpo =
      { success := true, video_id := v, language := some t.language_code,
        is_generated := gen,
        segments := segs.map (fun s =>
          { start := round2 s.start, duration := round2 s.duration,
            text := s.text }),
        full_text := String.intercalate "\n" (segs.map Segment.text),
        error := none } := by
  simp [extract_transcript, initResult, hsel, hf]

/-- Every run of `extract_transcript` ends in one of exactly two shapes: the
initial dictionary with an error message filled in (and possibly the
`is_generated` flag set), or the fetched success dictionary of some track. -/
lemma extract_shape (listing : Listing) (v : String)
    (lpo : Option (List String)) :
    (∃ (gen : Bool) (m : String), extract_transcript listing v lpo =
        { initResult v with is_generated := gen, error := some m }) ∨
    (∃ (t : Track) (gen : Bool) (segs : List Segment), t.fetch = Except.ok segs ∧
        extract_transcript listing v lpo =
          { success := true, video_id := v, language := some t.language_code,
            is_generated := gen,
            segments := segs.map (fun s =>
              { start := round2 s.start, duration := round2 s.duration,
                text := s.text }),
            full_text := String.intercalate "\n" (segs.map Segment.text),
            error := none }) := by
  cases listing with
  | error e => exact Or.inl ⟨false, catchMsg e, extract_listing_error e v lpo⟩
  | ok tracks =>
    cases hsel : selectTrack tracks (lpo.getD ["ko", "en"]) with
    | none =>
      exact Or.inl ⟨false, _, extract_select_none tracks v lpo hsel⟩
    | some p =>
      obtain ⟨t, gen⟩ := p
      cases hf : t.fetch with
      | error e =>
        exact Or.inl ⟨gen, catchMsg e, extract_fetch_err tracks v lpo t gen e hsel hf⟩
      | ok segs =>
        exact Or.inr ⟨t, gen, segs, hf, extract_fetch_ok tracks v lpo t gen segs hsel hf⟩

/-! ## The claims -/

/-- C4: every result of `extract_transcript` is in one of the two legal
terminal states — success with no error message, or failure with empty
segments and a populated error message; error and segments are never both
populated. -/
theorem spec_C4 (listing : Listing) (v : String) (lpo : Option (List String)) :
    ((extract_transcript listing v lpo).success = true ∧
      (extract_transcript listing v lpo).error = none) ∨
    ((extract_transcript listing v lpo).success = false ∧
      (extract_transcript listing v lpo).segments = [] ∧
      ∃ m, (extract_transcript listing v lpo).error = some m) := by
  rcases extract_shape listing v lpo with ⟨gen, m, hE⟩ | ⟨t, gen, segs, hf, hE⟩
  · right
    rw [hE]
    exact ⟨rfl, rfl, m, rfl⟩
  · left
    rw [hE]
    exact ⟨rfl, rfl⟩

/-- C6: a provider enumeration failing with `TranscriptsDisabled`,
`VideoUnavailable` or `NoTranscriptAvailable` yields success = false with the
corresponding except-clause message, and the three messages are pairwise
distinct. -/
theorem spec_C6 (v : String) (lpo : Option (List String)) :
    ((extract_transcript (Except.error PyExn.transcriptsDisabled) v lpo).success = false ∧
      (extract_transcript (Except.error PyExn.transcriptsDisabled) v lpo).error =
        some (catchMsg PyExn.transcriptsDisabled)) ∧
    ((extract_transcript (Except.error PyExn.videoUnavailable) v lpo).success = false ∧
      (extract_transcript (Except.error PyExn.videoUnavailable) v lpo).error =
        some (catchMsg PyExn.videoUnavailable)) ∧
    ((extract_transcript (Except.error PyExn.noTranscriptAvailable) v lpo).success = false ∧
      (extract_transcript (Except.error PyExn.noTranscriptAvailable) v lpo).error =
        some (catchMsg PyExn.noTranscriptAvailable)) ∧
    catchMsg PyExn.transcriptsDisabled ≠ catchMsg PyExn.videoUnavailable ∧
    catchMsg PyExn.transcriptsDisabled ≠ catchMsg PyExn.noTranscriptAvailable ∧
    catchMsg PyExn.videoUnavailable ≠ catchMsg PyExn.noTranscriptAvailable :=
  ⟨⟨rfl, rfl⟩, ⟨rfl, rfl⟩, ⟨rfl, rfl⟩, by decide, by decide, by decide⟩

/-- C7: on an empty track enumeration (no provider exception),
`extract_transcript` returns success = false, empty segments, and a non-empty
error message. -/
theorem spec_C7 (v : String) (lpo : Option (List String)) :
    (extract_transcript (Except.ok []) v lpo).success = false ∧
    (extract_transcript (Except.ok []) v lpo).segments = [] ∧
    ∃ m, (extract_transcript (Except.ok []) v lpo).error = some m ∧ m ≠ "" := by
  have hsel : selectTrack [] (lpo.getD ["ko", "en"]) = none := by
    unfold selectTrack
    have h1 : (lpo.getD ["ko", "en"]).findSome? (findManualTrack []) = none :=
      List.findSome?_eq_none_iff.2 (fun a _ => rfl)
    have h2 : (lpo.getD ["ko", "en"]).findSome? (findGeneratedTrack []) = none :=
      List.findSome?_eq_none_iff.2 (fun a _ => rfl)
    simp [h1, h2]
  rw [extract_select_none [] v lpo hsel]
  exact ⟨rfl, rfl, _, rfl, by decide⟩

/-- C8: `list_available_languages` projects every enumerated track to
(code, name, generated flag) preserving enumeration order on provider success,
and on any provider failure returns success = false, an empty language list,
and the failure's description as the error; being a total function it never
raises. -/
theorem spec_C8 (v : String) (tracks : List Track) (e : PyExn) :
    list_available_languages (Except.ok tracks) v =
      { success := true, video_id := v,
        languages := tracks.map (fun t =>
          { code := t.language_code, name := t.language,
            is_generated := t.is_generated }),
        error := none } ∧
    list_available_languages (Except.error e) v =
      { success := false, video_id := v, languages := [],
        error := some e.str } :=
  ⟨rfl, rfl⟩

/-- If `L` is the first language of the priority list for which some track
satisfying `pred` has language code `L`, then the per-language search loop
(`findSome?` of a per-language `find?`) succeeds with such a track. -/
lemma findSome?_find_of_first (pred : Track → Bool) (tracks : List Track)
    (f : String → Option Track) (lp : List String) (L : String)
    (hf : ∀ lang, f lang =
      tracks.find? (fun t => pred t && t.language_code == lang))
    (h : lp.find? (fun lang =>
      tracks.any (fun t => pred t && t.language_code == lang)) = some L) :
    ∃ t, lp.findSome? f = some t ∧ pred t = true ∧ t.language_code = L := by
  induction lp with
  | nil => simp at h
  | cons a as ih =>
    rw [List.find?_cons] at h
    cases hpa : tracks.any (fun t => pred t && t.language_code == a) with
    | true =>
      rw [hpa] at h
      have h' : a = L := Option.some.inj h
      subst h'
      have hx := List.find?_isSome.2 (List.any_eq_true.1 hpa)
      obtain ⟨t, ht⟩ := Option.isSome_iff_exists.1 hx
      have hp := List.find?_some ht
      rw [Bool.and_eq_true] at hp
      refine ⟨t, ?_, hp.1, by simpa using hp.2⟩
      rw [List.findSome?_cons, hf a, ht]
    | false =>
      rw [hpa] at h
      obtain ⟨t, hsome, hpred, hlang⟩ := ih h
      refine ⟨t, ?_, hpred, hlang⟩
      have hnone : f a = none := by
        rw [hf a, List.find?_eq_none]
        exact List.any_eq_false.1 hpa
      rw [List.findSome?_cons, hnone]
      exact hsome

/-- C1: if some priority language has a manually authored track, the selection
takes a manual track (is_generated recorded as false) in the first such
priority language, and — when its fetch succeeds — the returned result has
is_generated = false and that language. -/
theorem spec_C1 (tracks : List Track) (lp : List String) (v L : String)
    (hL : lp.find? (fun lang => tracks.any
      (fun t => !t.is_generated && t.language_code == lang)) = some L) :
    ∃ t, selectTrack tracks lp = some (t, false) ∧ t.is_generated = false ∧
      t.language_code = L ∧
      ∀ segs, t.fetch = Except.ok segs →
        (extract_transcript (Except.ok tracks) v (some lp)).success = true ∧
        (extract_transcript (Except.ok tracks) v (some lp)).is_generated = false ∧
        (extract_transcript (Except.ok tracks) v (some lp)).language = some L := by
  obtain ⟨t, hsome, hpred, hlang⟩ :=
    findSome?_find_of_first (fun t => !t.is_generated) tracks
      (findManualTrack tracks) lp L (fun lang => rfl) hL
  have hgen : t.is_generated = false := by simpa using hpred
  have hsel : selectTrack tracks lp = some (t, false) := by
    unfold selectTrack
    rw [hsome]
  refine ⟨t, hsel, hgen, hlang, fun segs hfet => ?_⟩
  rw [extract_fetch_ok tracks v (some lp) t false segs hsel hfet]
  exact ⟨rfl, rfl, by rw [hlang]⟩

/-- C1 witness: a video with a generated and a manual English track; with
priority ["ko", "en"], the first priority language with a manual track is
"en" and the manual English track is selected over the generated one. -/
theorem spec_C1_witness :
    ∃ t, selectTrack
        [{ language_code := "en", language := "English", is_generated := true,
           fetch := Except.ok [] },
         { language_code := "en", language := "English", is_generated := false,
           fetch := Except.ok [{ start := 0, duration := 1, text := "hi" }] }]
        ["ko", "en"] = some (t, false) ∧
      t.is_generated = false ∧ t.language_code = "en" ∧
      ∀ segs, t.fetch = Except.ok segs →
        (extract_transcript (Except.ok
          [{ language_code := "en", language := "English", is_generated := true,
             fetch := Except.ok [] },
           { language_code := "en", language := "English", is_generated := false,
             fetch := Except.ok [{ start := 0, duration := 1, text := "hi" }] }])
          "vid" (some ["ko", "en"])).success = true ∧
        (extract_transcript (Except.ok
          [{ language_code := "en", language := "English", is_generated := true,
             fetch := Except.ok [] },
           { language_code := "en", language := "English", is_generated := false,
             fetch := Except.ok [{ start := 0, duration := 1, text := "hi" }] }])
          "vid" (some ["ko", "en"])).is_generated = false ∧
        (extract_transcript (Except.ok
          [{ language_code := "en", language := "English", is_generated := true,
             fetch := Except.ok [] },
           { language_code := "en", language := "English", is_generated := false,
             fetch := Except.ok [{ start := 0, duration := 1, text := "hi" }] }])
          "vid" (some ["ko", "en"])).language = some "en" :=
  spec_C1 _ ["ko", "en"] "vid" "en" (by decide)

/-- C2: when no track at all carries a priority-list language and the
enumeration is non-empty, selection falls back to the first enumerated track,
keeps that track's own generated flag, and (when its fetch succeeds) returns
success = true with its language. -/
theorem spec_C2 (v : String) (lp : List String) (t0 : Track) (ts : List Track)
    (segs : List Segment)
    (hnone : ∀ lang ∈ lp, ∀ t ∈ t0 :: ts, (t.language_code == lang) = false)
    (hfet : t0.fetch = Except.ok segs) :
    selectTrack (t0 :: ts) lp = some (t0, t0.is_generated) ∧
    (extract_transcript (Except.ok (t0 :: ts)) v (some lp)).success = true ∧
    (extract_transcript (Except.ok (t0 :: ts)) v (some lp)).is_generated =
      t0.is_generated ∧
    (extract_transcript (Except.ok (t0 :: ts)) v (some lp)).language =
      some t0.language_code := by
  have hman : lp.findSome? (findManualTrack (t0 :: ts)) = none :=
    List.findSome?_eq_none_iff.2 (fun lang hl =>
      List.find?_eq_none.2 (fun t ht hp => by
        rw [Bool.and_eq_true] at hp
        rw [hnone lang hl t ht] at hp
        exact Bool.false_ne_true hp.2))
  have hgen : lp.findSome? (findGeneratedTrack (t0 :: ts)) = none :=
    List.findSome?_eq_none_iff.2 (fun lang hl =>
      List.find?_eq_none.2 (fun t ht hp => by
        rw [Bool.and_eq_true] at hp
        rw [hnone lang hl t ht] at hp
        exact Bool.false_ne_true hp.2))
  have hsel : selectTrack (t0 :: ts) lp = some (t0, t0.is_generated) := by
    unfold selectTrack
    rw [hman, hgen]
    rfl
  refine ⟨hsel, ?_⟩
  rw [extract_fetch_ok (t0 :: ts) v (some lp) t0 t0.is_generated segs hsel hfet]
  exact ⟨rfl, rfl, rfl⟩

/-- C2 witness: one Japanese generated track, priority ["ko", "en"]: the
fallback picks it, keeps is_generated = true, and succeeds. -/
theorem spec_C2_witness :
    selectTrack
      [{ language_code := "ja", language := "Japanese", is_generated := true,
         fetch := Except.ok [{ start := 0, duration := 1, text := "ya" }] }]
      ["ko", "en"] =
      some ({ language_code := "ja", language := "Japanese",
              is_generated := true,
              fetch := Except.ok
                [{ start := 0, duration := 1, text := "ya" }] }, true) ∧
    (extract_transcript (Except.ok
      [{ language_code := "ja", language := "Japanese", is_generated := true,
         fetch := Except.ok [{ start := 0, duration := 1, text := "ya" }] }])
      "vid" (some ["ko", "en"])).success = true ∧
    (extract_transcript (Except.ok
      [{ language_code := "ja", language := "Japanese", is_generated := true,
         fetch := Except.ok [{ start := 0, duration := 1, text := "ya" }] }])
      "vid" (some ["ko", "en"])).is_generated = true ∧
    (extract_transcript (Except.ok
      [{ language_code := "ja", language := "Japanese", is_generated := true,
         fetch := Except.ok [{ start := 0, duration := 1, text := "ya" }] }])
      "vid" (some ["ko", "en"])).language = some "ja" :=
  spec_C2 "vid" ["ko", "en"] _ [] _ (by decide) rfl

/-- C3: in every successful result, `full_text` is the newline-join of the
segments' texts in order. -/
theorem spec_C3 (listing : Listing) (v : String) (lpo : Option (List String))
    (h : (extract_transcript listing v lpo).success = true) :
    (extract_transcript listing v lpo).full_text =
      String.intercalate "\n"
        ((extract_transcript listing v lpo).segments.map Segment.text) := by
  rcases extract_shape listing v lpo with ⟨gen, m, hE⟩ | ⟨t, gen, segs, hf, hE⟩
  · rw [hE] at h
    exact absurd h (by simp [initResult])
  · rw [hE]
    simp [List.map_map, Function.comp_def]

/-- C3 witness: a concrete successful fetch whose full text is the newline
join of its segment texts. -/
theorem spec_C3_witness :
    (extract_transcript (Except.ok
      [{ language_code := "ko", language := "Korean", is_generated := false,
         fetch := Except.ok [{ start := 0, duration := 1, text := "a" },
                             { start := 1, duration := 2, text := "b" }] }])
      "vid" none).full_text =
      String.intercalate "\n"
        ((extract_transcript (Except.ok
          [{ language_code := "ko", language := "Korean", is_generated := false,
             fetch := Except.ok [{ start := 0, duration := 1, text := "a" },
                                 { start := 1, duration := 2, text := "b" }] }])
          "vid" none).segments.map Segment.text) :=
  spec_C3 _ "vid" none rfl

/-- C5: `extract_transcript` is a total function — no provider exception
escapes it — and an unrecognized provider failure, whether thrown while
enumerating tracks or while fetching the selected track's segments, produces
success = false with an error message embedding the underlying description. -/
theorem spec_C5 (v : String) (lpo : Option (List String)) (m : String) :
    (extract_transcript (Except.error (PyExn.other m)) v lpo).success = false ∧
    (extract_transcript (Except.error (PyExn.other m)) v lpo).error =
      some ("자막 추출 중 오류 발생: " ++ m) ∧
    ∀ (tracks : List Track) (t : Track) (gen : Bool),
      selectTrack tracks (lpo.getD ["ko", "en"]) = some (t, gen) →
      t.fetch = Except.error (PyExn.other m) →
      (extract_transcript (Except.ok tracks) v lpo).success = false ∧
      (extract_transcript (Except.ok tracks) v lpo).error =
        some ("자막 추출 중 오류 발생: " ++ m) := by
  refine ⟨rfl, rfl, fun tracks t gen hsel hf => ?_⟩
  rw [extract_fetch_err tracks v lpo t gen (PyExn.other m) hsel hf]
  exact ⟨rfl, rfl⟩

/-- C5 witness: a network fault while fetching the selected Korean track is
reported, not raised. -/
theorem spec_C5_witness :
    (extract_transcript (Except.ok
      [{ language_code := "ko", language := "Korean", is_generated := false,
         fetch := Except.error (PyExn.other "boom") }]) "vid" none).success =
      false ∧
    (extract_transcript (Except.ok
      [{ language_code := "ko", language := "Korean", is_generated := false,
         fetch := Except.error (PyExn.other "boom") }]) "vid" none).error =
      some ("자막 추출 중 오류 발생: " ++ "boom") :=
  (spec_C5 "vid" none "boom").2.2
    [{ language_code := "ko", language := "Korean", is_generated := false,
       fetch := Except.error (PyExn.other "boom") }]
    { language_code := "ko", language := "Korean", is_generated := false,
      fetch := Except.error (PyExn.other "boom") }
    false (by decide) rfl

/-- `pySplitComma` never returns the empty list of fields. -/
lemma pySplitComma_ne_nil (s : List Char) : pySplitComma s ≠ [] := by
  cases s with
  | nil => simp [pySplitComma]
  | cons c rest =>
    unfold pySplitComma
    split
    · simp
    · split <;> simp

/-- Joining the fields of `pySplitComma` with a comma restores the string:
the fields really are the comma-separated fields. -/
lemma pySplitComma_intercalate (s : List Char) :
    List.intercalate [','] (pySplitComma s) = s := by
  have hcons : ∀ (a b : List Char) (l : List (List Char)),
      List.intercalate [','] (a :: b :: l) =
        a ++ ',' :: List.intercalate [','] (b :: l) := by
    intro a b l
    simp [List.intercalate, List.intersperse_cons_cons]
  induction s with
  | nil => rfl
  | cons c rest ih =>
    unfold pySplitComma
    rcases hq : pySplitComma rest with _ | ⟨h, t⟩
    · exact absurd hq (pySplitComma_ne_nil rest)
    · rw [hq] at ih
      by_cases hc : c = ','
      · subst hc
        rw [if_pos rfl, hcons, List.nil_append, ih]
      · rw [if_neg hc]
        cases t with
        | nil =>
          simp only [List.intercalate, List.intersperse_singleton] at ih ⊢
          simpa using ih
        | cons b t' =>
          rw [hcons, List.cons_append, ← hcons, ih]

/-- No field produced by `pySplitComma` contains a comma. -/
lemma pySplitComma_no_comma (s : List Char) :
    ∀ p ∈ pySplitComma s, ',' ∉ p := by
  induction s with
  | nil =>
    intro p hp
    simp [pySplitComma] at hp
    simp [hp]
  | cons c rest ih =>
    intro p hp
    unfold pySplitComma at hp
    rcases hq : pySplitComma rest with _ | ⟨h, t⟩
    · exact absurd hq (pySplitComma_ne_nil rest)
    · rw [hq] at hp
      by_cases hc : c = ','
      · subst hc
        rw [if_pos rfl] at hp
        rcases List.mem_cons.1 hp with h0 | h1
        · subst h0; simp
        · exact ih p (hq ▸ h1)
      · rw [if_neg hc] at hp
        rcases List.mem_cons.1 hp with h0 | h1
        · subst h0
          intro hmem
          rcases List.mem_cons.1 hmem with h2 | h3
          · exact hc h2.symm
          · exact ih h (hq ▸ List.mem_cons_self h t) h3
        · exact ih p (hq ▸ List.mem_cons_of_mem h h1)

/-- C9: the /api/transcript handler passes to `extract_transcript` exactly the
comma-separated fields of the `lang` query value (a token list that joins back
to `lang` on commas, none of whose fields contains a comma), each stripped of
surrounding whitespace with empty tokens removed; an absent `lang` defaults to
"ko,en", i.e. the priority ["ko", "en"]. -/
theorem spec_C9 (listing : Listing) (v lang : String) :
    (∃ toks : List (List Char),
      List.intercalate [','] toks = lang.data ∧
      (∀ p ∈ toks, ',' ∉ p) ∧
      get_transcript listing v (some lang) =
        extract_transcript listing v
          (some ((toks.map (fun l => String.mk (pyStrip l))).filter
            (fun s => s ≠ "")))) ∧
    get_transcript listing v none =
      extract_transcript listing v (some ["ko", "en"]) := by
  refine ⟨⟨pySplitComma lang.data, pySplitComma_intercalate _,
    pySplitComma_no_comma _, rfl⟩, ?_⟩
  show extract_transcript listing v (some (parse_lang "ko,en")) = _
  have h : parse_lang "ko,en" = ["ko", "en"] := by decide
  rw [h]

/-- C9 witness: with `lang` absent the handler calls the selector with the
default priority ["ko", "en"]. -/
theorem spec_C9_witness :
    get_transcript (Except.ok []) "vid" none =
      extract_transcript (Except.ok []) "vid" (some ["ko", "en"]) :=
  (spec_C9 (Except.ok []) "vid" "").2

/-- C10: with an explicitly empty priority list (as produced by a `lang` value
of only commas and whitespace) the default is not applied: both priority scans
are vacuous and selection goes straight to the fallback, the first enumerated
track with its own generated flag. -/
theorem spec_C10 (v : String) (tracks : List Track) :
    selectTrack tracks [] = tracks.head?.map (fun t => (t, t.is_generated)) ∧
    ∀ (t : Track) (ts : List Track) (segs : List Segment),
      tracks = t :: ts → t.fetch = Except.ok segs →
      (extract_transcript (Except.ok tracks) v (some [])).success = true ∧
      (extract_transcript (Except.ok tracks) v (some [])).is_generated =
        t.is_generated ∧
      (extract_transcript (Except.ok tracks) v (some [])).language =
        some t.language_code := by
  constructor
  · cases tracks <;> rfl
  · intro t ts segs htr hfet
    subst htr
    have hsel : selectTrack (t :: ts) [] = some (t, t.is_generated) := rfl
    rw [extract_fetch_ok (t :: ts) v (some []) t t.is_generated segs hsel hfet]
    exact ⟨rfl, rfl, rfl⟩

/-- C10 witness: priority parsed from ",  ," is empty; with it, a video whose
first enumerated track is a generated Japanese one — a manual Korean track
coming later — yields that first track, not the ["ko", "en"] default's pick. -/
theorem spec_C10_witness :
    parse_lang ",  ," = [] ∧
    ((extract_transcript (Except.ok
      [{ language_code := "ja", language := "Japanese", is_generated := true,
         fetch := Except.ok [{ start := 0, duration := 1, text := "ya" }] },
       { language_code := "ko", language := "Korean", is_generated := false,
         fetch := Except.ok [{ start := 0, duration := 1, text := "안녕" }] }])
      "vid" (some [])).success = true ∧
    (extract_transcript (Except.ok
      [{ language_code := "ja", language := "Japanese", is_generated := true,
         fetch := Except.ok [{ start := 0, duration := 1, text := "ya" }] },
       { language_code := "ko", language := "Korean", is_generated := false,
         fetch := Except.ok [{ start := 0, duration := 1, text := "안녕" }] }])
      "vid" (some [])).is_generated = true ∧
    (extract_transcript (Except.ok
      [{ language_code := "ja", language := "Japanese", is_generated := true,
         fetch := Except.ok [{ start := 0, duration := 1, text := "ya" }] },
       { language_code := "ko", language := "Korean", is_generated := false,
         fetch := Except.ok [{ start := 0, duration := 1, text := "안녕" }] }])
      "vid" (some [])).language = some "ja") :=
  ⟨by decide, (spec_C10 "vid" _).2 _
    [{ language_code := "ko", language := "Korean", is_generated := false,
       fetch := Except.ok [{ start := 0, duration := 1, text := "안녕" }] }]
    _ rfl rfl⟩
